import Mathlib

/-!
Shallow embedding of the NyayaMitra background-job pipeline
(src/jobs/CaseSyncJob.ts, src/jobs/SosDispatchJob.ts, src/jobs/index.ts:
report triage, moderator assignment, notification rendering, health check),
together with theorems settling the specification claims about it.

Database reads, external API calls and queue operations are modelled as
explicit environment parameters (functions or `Except`-valued outcomes);
`Date` values are modelled by their epoch-millisecond timestamps (`Int`);
`Math.random()` is modelled as a rational parameter in `[0, 1)`.
-/

namespace NyayaMitra

/-! ## Case sync (src/jobs/CaseSyncJob.ts) -/

/-- A stored case row, restricted to the fields the sync job reads.
`nextHearing` is a nullable `Date`, modelled by its epoch timestamp;
`judge` and `court` are nullable strings. -/
structure CaseRecord where
  caseNumber : String
  title : String
  status : String
  nextHearing : Option Int
  judge : Option String
  court : Option String
deriving DecidableEq, Repr

/-- `checkForSignificantUpdates` (CaseSyncJob.ts lines 87-117): the five
field comparisons, in source order; `nextHearing` is compared via
`getTime()` on the optional dates, which the `Option Int` model captures. -/
def checkForSignificantUpdates (oldCase newCase : CaseRecord) : Bool :=
  if oldCase.status ≠ newCase.status then true
  else if oldCase.nextHearing ≠ newCase.nextHearing then true
  else if oldCase.judge ≠ newCase.judge then true
  else if oldCase.court ≠ newCase.court then true
  else if oldCase.title ≠ newCase.title then true
  else false

/-- A `caseFollow` row joined with its user, restricted to what the job reads. -/
structure Follower where
  userId : String
  firstName : String
  lastName : String
deriving DecidableEq, Repr

/-- A `send-notification` job payload as enqueued by the case sync job. -/
structure CaseNotifJob where
  userId : String
  template : String
  caseNumber : String
  title : String
  userName : String
deriving DecidableEq, Repr

/-- Environment of `processCaseSync`: the database lookup, the external
case API, and the follower query. -/
structure CaseSyncEnv where
  findCase : String → Option CaseRecord
  syncFromExternal : String → Option CaseRecord
  followersOf : String → List Follower

/-- Result value of a single case sync run, plus the notification jobs it
enqueued (the code's side effect on the `notifications` queue). -/
structure CaseSyncResult where
  success : Bool
  caseNumber : String
  hasSignificantUpdate : Bool
  enqueued : List CaseNotifJob
deriving DecidableEq, Repr

/-- `processCaseSync` (CaseSyncJob.ts lines 7-84): look up the case (throw
when missing), fetch the external snapshot (throw when the fetch fails),
diff the five fields, and when they differ enqueue one `case-update`
notification per follower. -/
def processCaseSync (env : CaseSyncEnv) (caseId : String) :
    Except String CaseSyncResult :=
  match env.findCase caseId with
  | none => .error ("Case " ++ caseId ++ " not found")
  | some caseRecord =>
    match env.syncFromExternal caseRecord.caseNumber with
    | none => .error ("Failed to sync case " ++ caseRecord.caseNumber ++
        " from external API")
    | some updatedCase =>
      let hasSignificantUpdate := checkForSignificantUpdates caseRecord updatedCase
      let enqueued :=
        if hasSignificantUpdate then
          (env.followersOf caseId).map (fun follow =>
            { userId := follow.userId
              template := "case-update"
              caseNumber := updatedCase.caseNumber
              title := updatedCase.title
              userName := follow.firstName ++ " " ++ follow.lastName })
        else []
      .ok { success := true, caseNumber := caseRecord.caseNumber,
            hasSignificantUpdate := hasSignificantUpdate, enqueued := enqueued }

/-- Accumulator of `processBatchCaseSync`. -/
structure BatchResults where
  successful : Nat
  failed : Nat
  errors : List String
deriving DecidableEq, Repr

/-- One iteration of the batch loop (CaseSyncJob.ts lines 133-145): sync one
case, count a success, or catch the error, count a failure and append one
error message. -/
def batchStep (env : CaseSyncEnv) (acc : BatchResults) (caseId : String) :
    BatchResults :=
  match processCaseSync env caseId with
  | .ok _ => { acc with successful := acc.successful + 1 }
  | .error e =>
      { acc with failed := acc.failed + 1,
                 errors := acc.errors ++ ["Case " ++ caseId ++ ": " ++ e] }

/-- `processBatchCaseSync` (CaseSyncJob.ts lines 120-157): fold the per-case
loop over the whole id list; a per-case failure is caught inside the loop
body, so the fold always consumes every id. -/
def processBatchCaseSync (env : CaseSyncEnv) (caseIds : List String) :
    BatchResults :=
  caseIds.foldl (batchStep env) ⟨0, 0, []⟩

/-! ## Report triage (src/jobs/index.ts, report triage section) -/

/-- Report priority values (`'LOW' | 'MEDIUM' | 'HIGH'`). -/
inductive ReportPriority where
  | LOW
  | MEDIUM
  | HIGH
deriving DecidableEq, Repr

/-- Numeric rank of a report priority, for the order LOW < MEDIUM < HIGH. -/
def prioRank : ReportPriority → Nat
  | .LOW => 0
  | .MEDIUM => 1
  | .HIGH => 2

/-- JavaScript `haystack.includes(needle)`: some suffix of `haystack` has
`needle` as a prefix. -/
def strIncludes (s pat : String) : Bool :=
  (List.range (s.data.length + 1)).any (fun i => pat.data.isPrefixOf (s.data.drop i))

/-- JavaScript `s.toLowerCase()` (for the ASCII keyword tables the triage
uses), as a character-wise map on the string's characters. -/
def lowerStr (s : String) : String :=
  ⟨s.data.map Char.toLower⟩

/-- The fixed high-priority keyword list (index.ts lines 317-320). -/
def highPriorityKeywords : List String :=
  ["bribe", "extortion", "fraud", "embezzlement", "money laundering",
   "large amount", "minister", "senior official", "urgent", "ongoing"]

/-- The fixed medium-priority keyword list (index.ts lines 323-325). -/
def mediumPriorityKeywords : List String :=
  ["nepotism", "favoritism", "misuse", "irregularity", "violation"]

/-- The fixed high-impact department list (index.ts lines 342-344). -/
def highPriorityDepartments : List String :=
  ["police", "judiciary", "revenue", "customs", "banking"]

/-- The department escalation (index.ts lines 346-351): `MEDIUM` is raised to
`HIGH` first, then a still-`LOW` priority is raised to `MEDIUM`. -/
def deptBump : ReportPriority → ReportPriority
  | .MEDIUM => .HIGH
  | .LOW => .MEDIUM
  | .HIGH => .HIGH

/-- The evidence escalation (index.ts line 364): only `LOW` is raised. -/
def evidenceBump : ReportPriority → ReportPriority
  | .LOW => .MEDIUM
  | p => p

/-- The recent-and-ongoing escalation (index.ts line 371): only `MEDIUM` is
raised. -/
def ongoingBump : ReportPriority → ReportPriority
  | .MEDIUM => .HIGH
  | p => p

/-- A corruption report row, restricted to the fields triage reads;
`createdAt` is the creation `Date` as an epoch timestamp. -/
structure Report where
  id : String
  title : String
  description : String
  department : String
  createdAt : Int
deriving DecidableEq, Repr

/-- The keyword phase of the priority computation of `performAutoTriage`
(index.ts lines 310-339): start at `MEDIUM`; a high-keyword match forces
`HIGH`; a medium-keyword match (re)sets `MEDIUM` when not already `HIGH`. -/
def keywordPriority (content : String) : ReportPriority :=
  let highMatches := highPriorityKeywords.filter (fun k => strIncludes content k)
  let p1 : ReportPriority := if 0 < highMatches.length then .HIGH else .MEDIUM
  let mediumMatches := mediumPriorityKeywords.filter (fun k => strIncludes content k)
  if 0 < mediumMatches.length ∧ p1 ≠ .HIGH then .MEDIUM else p1

/-- The full priority computation of `performAutoTriage` (index.ts lines
310-373): the keyword phase, then the department, evidence and
recent-ongoing escalations, in source order.  `evidenceCount` is the count
of `COMPLETED` media assets of the report, `now` is `Date.now()`. -/
def triagePriority (report : Report) (evidenceCount : Nat) (now : Int) :
    ReportPriority :=
  let content := lowerStr (report.title ++ " " ++ report.description)
  let p2 := keywordPriority content
  let p3 := if highPriorityDepartments.any
      (fun dept => strIncludes (lowerStr report.department) dept) then deptBump p2 else p2
  let p4 := if 0 < evidenceCount then evidenceBump p3 else p3
  let isRecent := now - report.createdAt < 24 * 60 * 60 * 1000
  if isRecent ∧ strIncludes content "ongoing" then ongoingBump p4 else p4

/-- One moderator together with the computed workload (the count of that
moderator's reports in status `UNDER_REVIEW` or `INVESTIGATING`), as built
by `findBestModerator` (index.ts lines 412-426). -/
structure ModeratorWorkload where
  moderatorId : String
  workload : Nat
deriving DecidableEq, Repr

/-- Workload comparator of the JavaScript `sort((a, b) => a.workload - b.workload)`. -/
def workloadLe (a b : ModeratorWorkload) : Bool :=
  decide (a.workload ≤ b.workload)

/-- The workload list, stably sorted by ascending workload (index.ts line
429; JavaScript `Array.prototype.sort` is stable, modelled by
`List.mergeSort`). -/
def sortedWorkloads (ws : List ModeratorWorkload) : List ModeratorWorkload :=
  ws.mergeSort workloadLe

/-- The `availableModerators` list (index.ts line 437): the sorted entries
with workload below 10. -/
def availableModerators (ws : List ModeratorWorkload) : List ModeratorWorkload :=
  (sortedWorkloads ws).filter (fun m => m.workload < 10)

/-- The selection logic of `findBestModerator` (index.ts lines 407-444), after
the moderator list and workloads have been fetched: empty list gives
`undefined`; `HIGH` priority takes the first (least busy) entry of the
sorted list; otherwise the entry at index `Math.floor(rand * length)` of
the available (workload < 10) list, where `rand` models `Math.random()`;
with no available entry, fall back to the least busy. -/
def selectModerator (moderatorWorkloads : List ModeratorWorkload)
    (priority : ReportPriority) (rand : ℚ) : Option String :=
  if moderatorWorkloads.isEmpty then none
  else if priority = .HIGH then
    (sortedWorkloads moderatorWorkloads).head?.map (·.moderatorId)
  else if 0 < (availableModerators moderatorWorkloads).length then
    ((availableModerators moderatorWorkloads).get?
      (⌊rand * (availableModerators moderatorWorkloads).length⌋).toNat).map
      (·.moderatorId)
  else
    (sortedWorkloads moderatorWorkloads).head?.map (·.moderatorId)

/-- `findBestModerator` (index.ts lines 397-450): the whole body is wrapped in
`try/catch` with `return undefined` in the catch; `tryLookup` models the
database reads of the body (moderator list and workload counts), which may
throw. -/
def findBestModerator (tryLookup : Except String (List ModeratorWorkload))
    (priority : ReportPriority) (rand : ℚ) : Option String :=
  match tryLookup with
  | .error _ => none
  | .ok moderatorWorkloads => selectModerator moderatorWorkloads priority rand

/-- The result of `performAutoTriage` (index.ts lines 304-394).  The
`reasoning` string list of the source is omitted: it does not affect the
status, priority or assignment. -/
structure TriageResult where
  status : String
  assignedTo : Option String
  priority : ReportPriority
deriving DecidableEq, Repr

/-- `performAutoTriage` (index.ts lines 304-394): compute the priority, pick
an assignee with `findBestModerator`, and set the status to `INVESTIGATING`
for `HIGH` priority, else `UNDER_REVIEW` (index.ts lines 382-386). -/
def performAutoTriage (report : Report) (evidenceCount : Nat) (now : Int)
    (modLookup : Except String (List ModeratorWorkload)) (rand : ℚ) :
    TriageResult :=
  let priority := triagePriority report evidenceCount now
  let assignedTo := findBestModerator modLookup priority rand
  let status := if priority = .HIGH then "INVESTIGATING" else "UNDER_REVIEW"
  { status := status, assignedTo := assignedTo, priority := priority }

/-- A `send-notification` job payload as enqueued by `notifyModerators`. -/
structure ModNotifJob where
  userId : String
  template : String
deriving DecidableEq, Repr

/-- The enqueue loop of `notifyModerators` (index.ts lines 468-482): jobs are
added one by one; the first failing `add` throws out of the loop (the jobs
already added stay enqueued).  Returns the list of jobs actually enqueued. -/
def enqueueLoop (enqueueOk : ModNotifJob → Bool) : List ModNotifJob → List ModNotifJob
  | [] => []
  | j :: rest => if enqueueOk j then j :: enqueueLoop enqueueOk rest else []

/-- `notifyModerators` (index.ts lines 453-489): fetch all active moderators
and admins (`modAdminLookup`, which may throw) and enqueue one
`high-priority-report` notification per user; the whole body is wrapped in
`try/catch` where the catch only logs, so the function never propagates an
error.  Returns the notification jobs that were enqueued. -/
def notifyModerators (modAdminLookup : Except String (List String))
    (enqueueOk : ModNotifJob → Bool) : List ModNotifJob :=
  match modAdminLookup with
  | .error _ => []
  | .ok mods =>
      enqueueLoop enqueueOk
        (mods.map (fun m => { userId := m, template := "high-priority-report" }))

/-- Environment of `processReportTriage`: the report lookup, the triage
inputs, and the update / notification outcomes. -/
structure ReportTriageEnv where
  findReport : String → Option Report
  evidenceCount : Nat
  now : Int
  modLookup : Except String (List ModeratorWorkload)
  rand : ℚ
  updateReport : String → String → Option String → Except String Unit
  modAdminLookup : Except String (List String)
  enqueueOk : ModNotifJob → Bool

/-- `processReportTriage` (index.ts lines 257-301): look up the report (throw
when missing), run the auto triage, persist status and assignee (a throwing
update fails the job), and for `HIGH` priority notify the moderators (whose
errors are swallowed inside `notifyModerators`).  Returns the triage result
together with the moderator notification jobs enqueued. -/
def processReportTriage (env : ReportTriageEnv) (reportId : String) :
    Except String (TriageResult × List ModNotifJob) :=
  match env.findReport reportId with
  | none => .error ("Report " ++ reportId ++ " not found")
  | some report =>
    let triageResult :=
      performAutoTriage report env.evidenceCount env.now env.modLookup env.rand
    match env.updateReport reportId triageResult.status triageResult.assignedTo with
    | .error e => .error e
    | .ok _ =>
      let notified :=
        if triageResult.priority = .HIGH then
          notifyModerators env.modAdminLookup env.enqueueOk
        else []
      .ok (triageResult, notified)

/-! ## SOS dispatch (src/jobs/SosDispatchJob.ts) -/

/-- SOS priority values (`'CRITICAL' | 'HIGH' | 'MEDIUM' | 'LOW'`). -/
inductive SosPriority where
  | CRITICAL
  | HIGH
  | MEDIUM
  | LOW
deriving DecidableEq, Repr

/-- SOS incident status values of the data model. -/
inductive SosStatus where
  | PENDING
  | ACKNOWLEDGED
  | IN_PROGRESS
  | RESOLVED
  | DISMISSED
deriving DecidableEq, Repr

/-- Service selection of `processSosDispatch` (SosDispatchJob.ts lines 26-34):
`CRITICAL`/`HIGH` pushes Police, Medical, Fire Department; `MEDIUM` pushes
Police; the `else` branch (only `LOW` remains) pushes Local Security. -/
def servicesFor (priority : SosPriority) : List String :=
  if priority = .CRITICAL ∨ priority = .HIGH then
    ["Police", "Medical", "Fire Department"]
  else if priority = .MEDIUM then
    ["Police"]
  else
    ["Local Security"]

/-- One execution of `processSosDispatch` (SosDispatchJob.ts lines 6-76):
call each selected service in order (`callOk` models whether a given
service's call succeeds); the first failure throws out of the loop, the
catch block sets the incident status to `PENDING` and rethrows; when every
call succeeds the incident status is set to `ACKNOWLEDGED`.  Returns the
job outcome together with the status written to the incident row. -/
def processSosDispatch (priority : SosPriority) (callOk : String → Bool) :
    Except String (List String) × SosStatus :=
  let services := servicesFor priority
  match services.find? (fun s => ¬ callOk s) with
  | some s => (.error ("Failed to notify " ++ s), .PENDING)
  | none => (.ok services, .ACKNOWLEDGED)

/-- Whether attempt number `k` of the dispatch job fails (some service call
of that attempt fails); `attemptCallOk k s` models the outcome of calling
service `s` during attempt `k`. -/
def sosAttemptFails (priority : SosPriority) (attemptCallOk : Nat → String → Bool)
    (k : Nat) : Bool :=
  ¬ (servicesFor priority).all (attemptCallOk k)

/-- The queue-level retry loop around `processSosDispatch` (BullMQ `attempts`,
scheduled with `attempts: 3` in index.ts lines 108-118): run the job; on a
thrown error retry while budget remains.  Returns the sequence of status
values written to the incident row, in order, starting from attempt number
`attempt` with `budget` attempts remaining. -/
def sosRetryWrites (priority : SosPriority) (attemptCallOk : Nat → String → Bool)
    (attempt : Nat) : Nat → List SosStatus
  | 0 => []
  | b + 1 =>
    match processSosDispatch priority (attemptCallOk attempt) with
    | (.ok _, w) => [w]
    | (.error _, w) => w :: sosRetryWrites priority attemptCallOk (attempt + 1) b

/-- A full dispatch run: up to `maxAttempts` attempts, first attempt numbered
0; the result is the ordered trace of incident status writes. -/
def sosDispatchRun (priority : SosPriority) (attemptCallOk : Nat → String → Bool)
    (maxAttempts : Nat) : List SosStatus :=
  sosRetryWrites priority attemptCallOk 0 maxAttempts

/-! ## Job system health (src/jobs/index.ts lines 222-251) -/

/-- A worker as the health check sees it: its queue name and whether
`isRunning()` holds. -/
structure WorkerState where
  name : String
  running : Bool
deriving DecidableEq, Repr

/-- Per-queue counts as returned by `getQueueStats` (index.ts lines 195-219). -/
structure QueueStats where
  name : String
  waiting : Nat
  active : Nat
  completed : Nat
  failed : Nat
  delayed : Nat
deriving DecidableEq, Repr

/-- The three health verdicts. -/
inductive Health where
  | healthy
  | degraded
  | unhealthy
deriving DecidableEq, Repr

/-- `checkJobSystemHealth` (index.ts lines 222-251): map each worker to a
`running`/`stopped` string; verdict `unhealthy` when not all workers are
running, else `degraded` when some queue has more than 10 failed jobs, else
`healthy`.  Returns the verdict and the per-worker status list. -/
def checkJobSystemHealth (ws : List WorkerState) (qs : List QueueStats) :
    Health × List (String × String) :=
  let workerStatuses := ws.map (fun w =>
    (w.name, if w.running then "running" else "stopped"))
  let allWorkersRunning := workerStatuses.all (fun p => p.2 = "running")
  let status : Health :=
    if ¬ allWorkersRunning then .unhealthy
    else if qs.any (fun q => 10 < q.failed) then .degraded
    else .healthy
  (status, workerStatuses)

/-! ## Notification rendering (NotificationJob, in src/jobs/SosDispatchJob.ts
lines 205-300 of the concatenated source) -/

/-- The template data fields the three known templates interpolate.
`resolutionText` models the optional `data.resolution`. -/
structure TemplateData where
  userName : String
  incidentId : String
  status : String
  title : String
  caseNumber : String
  eventTitle : String
  eventDate : String
  resolutionText : Option String
deriving DecidableEq, Repr

/-- An email as produced by `generateEmailContent`. -/
structure EmailContent where
  subject : String
  html : String
  text : String
deriving DecidableEq, Repr

/-- `generateEmailContent` (lines 205-273): a fixed table keyed by template
name with a generic default.  `nowLocale` models `new Date().toLocaleString()`
and `localeDateOf` models `new Date(s).toLocaleDateString()`.  The `html`
bodies reproduce the source markup with whitespace normalised to single
newlines. -/
def generateEmailContent (template : String) (data : TemplateData)
    (nowLocale : String) (localeDateOf : String → String) : EmailContent :=
  if template = "sos-status-update" then
    { subject := "SOS Incident Update - " ++ data.status
      html := "<h2>SOS Incident Status Update</h2>\n<p>Dear " ++ data.userName ++
        ",</p>\n<p>Your SOS incident has been updated:</p>\n<ul>\n" ++
        "<li><strong>Incident ID:</strong> " ++ data.incidentId ++ "</li>\n" ++
        "<li><strong>Status:</strong> " ++ data.status ++ "</li>\n" ++
        "<li><strong>Updated:</strong> " ++ nowLocale ++ "</li>\n</ul>\n" ++
        "<p>If you need immediate assistance, please contact emergency services directly.</p>\n" ++
        "<p>Best regards,<br>NyayaMitra Team</p>"
      text := "SOS Incident Update - " ++ data.status ++ "\n\nDear " ++
        data.userName ++ ",\n\nYour SOS incident " ++ data.incidentId ++
        " has been updated to status: " ++ data.status ++ "\n\nUpdated: " ++
        nowLocale ++
        "\n\nIf you need immediate assistance, please contact emergency services directly.\n\nBest regards,\nNyayaMitra Team" }
  else if template = "report-status-update" then
    { subject := "Corruption Report Update - " ++ data.status
      html := "<h2>Corruption Report Status Update</h2>\n<p>Dear " ++ data.userName ++
        ",</p>\n<p>Your corruption report has been updated:</p>\n<ul>\n" ++
        "<li><strong>Report:</strong> " ++ data.title ++ "</li>\n" ++
        "<li><strong>Status:</strong> " ++ data.status ++ "</li>\n" ++
        "<li><strong>Updated:</strong> " ++ nowLocale ++ "</li>\n" ++
        (match data.resolutionText with
         | some r => "<li><strong>Resolution:</strong> " ++ r ++ "</li>"
         | none => "") ++
        "\n</ul>\n<p>Thank you for your contribution to fighting corruption.</p>\n" ++
        "<p>Best regards,<br>NyayaMitra Team</p>"
      text := "Corruption Report Update - " ++ data.status ++ "\n\nDear " ++
        data.userName ++ ",\n\nYour corruption report \"" ++ data.title ++
        "\" has been updated to status: " ++ data.status ++ "\n\n" ++
        (match data.resolutionText with
         | some r => "Resolution: " ++ r ++ "\n"
         | none => "") ++
        "Updated: " ++ nowLocale ++
        "\n\nThank you for your contribution to fighting corruption.\n\nBest regards,\nNyayaMitra Team" }
  else if template = "case-update" then
    { subject := "Case Update - " ++ data.caseNumber
      html := "<h2>Case Update Notification</h2>\n<p>Dear " ++ data.userName ++
        ",</p>\n<p>A case you are following has been updated:</p>\n<ul>\n" ++
        "<li><strong>Case:</strong> " ++ data.caseNumber ++ " - " ++ data.title ++ "</li>\n" ++
        "<li><strong>Update:</strong> " ++ data.eventTitle ++ "</li>\n" ++
        "<li><strong>Date:</strong> " ++ localeDateOf data.eventDate ++ "</li>\n</ul>\n" ++
        "<p>You can view the full details in your NyayaMitra dashboard.</p>\n" ++
        "<p>Best regards,<br>NyayaMitra Team</p>"
      text := "Case Update - " ++ data.caseNumber ++ "\n\nDear " ++ data.userName ++
        ",\n\nA case you are following has been updated:\n\nCase: " ++
        data.caseNumber ++ " - " ++ data.title ++ "\nUpdate: " ++ data.eventTitle ++
        "\nDate: " ++ localeDateOf data.eventDate ++
        "\n\nYou can view the full details in your NyayaMitra dashboard.\n\nBest regards,\nNyayaMitra Team" }
  else
    { subject := "NyayaMitra Notification"
      html := "<p>You have a new notification from NyayaMitra.</p>"
      text := "You have a new notification from NyayaMitra." }

/-- `generateSMSContent` (lines 276-300): the SMS counterpart of the fixed
template table, with the same three keys and a generic default. -/
def generateSMSContent (template : String) (data : TemplateData)
    (nowLocale : String) (localeDateOf : String → String) : String :=
  if template = "sos-status-update" then
    "NyayaMitra: Your SOS incident " ++ data.incidentId ++
    " status updated to " ++ data.status ++ ". Updated: " ++ nowLocale
  else if template = "report-status-update" then
    "NyayaMitra: Your corruption report status updated to " ++ data.status ++
    ". " ++ (match data.resolutionText with
             | some r => "Resolution: " ++ r
             | none => "")
  else if template = "case-update" then
    "NyayaMitra: Case " ++ data.caseNumber ++ " updated - " ++ data.eventTitle ++
    ". Date: " ++ localeDateOf data.eventDate
  else
    "You have a new notification from NyayaMitra."

/-- The generic fallback email of `generateEmailContent`. -/
def genericEmail : EmailContent :=
  { subject := "NyayaMitra Notification"
    html := "<p>You have a new notification from NyayaMitra.</p>"
    text := "You have a new notification from NyayaMitra." }

/-! ## Witness inputs -/

/-- A stored case row used as concrete input. -/
def caseOldW : CaseRecord :=
  { caseNumber := "CN-1", title := "State v. Doe", status := "OPEN",
    nextHearing := some 1700000000000, judge := some "J. Rao", court := some "HC" }

/-- The fetched snapshot of the same case, with a changed status. -/
def caseNewW : CaseRecord :=
  { caseNumber := "CN-1", title := "State v. Doe", status := "CLOSED",
    nextHearing := some 1700000000000, judge := some "J. Rao", court := some "HC" }

/-- A concrete case sync environment with one follower. -/
def caseSyncEnvW : CaseSyncEnv :=
  { findCase := fun _ => some caseOldW
    syncFromExternal := fun _ => some caseNewW
    followersOf := fun _ => [{ userId := "u1", firstName := "Asha", lastName := "Kumar" }] }

/-- A concrete stopped worker. -/
def workerStoppedW : WorkerState := { name := "sos-dispatch", running := false }

/-- A concrete queue with no failed jobs. -/
def queueCleanW : QueueStats :=
  { name := "sos-dispatch", waiting := 0, active := 0, completed := 0,
    failed := 0, delayed := 0 }

/-- A concrete per-attempt call outcome: every service call of attempt 0
fails, every later attempt succeeds. -/
def flakyCalls : Nat → String → Bool := fun k _ => decide (0 < k)

/-- A concrete workload list: two moderators, the second one least busy. -/
def workloadsW : List ModeratorWorkload :=
  [{ moderatorId := "m1", workload := 2 }, { moderatorId := "m2", workload := 0 }]

/-! ## Theorems -/

/-- `checkForSignificantUpdates` holds exactly when one of the five compared
fields differs. -/
lemma checkForSignificantUpdates_iff (o n : CaseRecord) :
    checkForSignificantUpdates o n = true ↔
      (o.status ≠ n.status ∨ o.nextHearing ≠ n.nextHearing ∨ o.judge ≠ n.judge ∨
        o.court ≠ n.court ∨ o.title ≠ n.title) := by
  unfold checkForSignificantUpdates
  split_ifs <;> simp_all

/-- C1: for a case sync run on an existing case whose external fetch
succeeds, a notification job is enqueued for each follower iff one of the
five fields status, nextHearing (by timestamp), judge, court, title differs
between the stored record and the fetched snapshot; when all five agree no
job is enqueued for any follower. -/
theorem caseSync_notifies_iff_changed
    (env : CaseSyncEnv) (caseId : String) (oldC newC : CaseRecord)
    (hfind : env.findCase caseId = some oldC)
    (hsync : env.syncFromExternal oldC.caseNumber = some newC) :
    ∃ r, processCaseSync env caseId = .ok r ∧
      (∀ f ∈ env.followersOf caseId,
        ((∃ j ∈ r.enqueued, j.userId = f.userId) ↔
          (oldC.status ≠ newC.status ∨ oldC.nextHearing ≠ newC.nextHearing ∨
            oldC.judge ≠ newC.judge ∨ oldC.court ≠ newC.court ∨
            oldC.title ≠ newC.title))) ∧
      ((oldC.status = newC.status ∧ oldC.nextHearing = newC.nextHearing ∧
        oldC.judge = newC.judge ∧ oldC.court = newC.court ∧
        oldC.title = newC.title) → r.enqueued = []) := by
  classical
  refine ⟨{ success := true, caseNumber := oldC.caseNumber,
            hasSignificantUpdate := checkForSignificantUpdates oldC newC,
            enqueued := if checkForSignificantUpdates oldC newC then
                (env.followersOf caseId).map (fun follow =>
                  { userId := follow.userId
                    template := "case-update"
                    caseNumber := newC.caseNumber
                    title := newC.title
                    userName := follow.firstName ++ " " ++ follow.lastName })
              else [] }, ?_, ?_, ?_⟩
  · simp only [processCaseSync, hfind, hsync]
  · intro f hf
    by_cases hc : checkForSignificantUpdates oldC newC = true
    · simp only [hc, if_true]
      exact ⟨fun _ => (checkForSignificantUpdates_iff oldC newC).mp hc,
             fun _ => ⟨_, List.mem_map_of_mem _ hf, rfl⟩⟩
    · have hb : checkForSignificantUpdates oldC newC = false :=
        Bool.not_eq_true _ ▸ Bool.of_not_eq_true hc
      have hnd : ¬ (oldC.status ≠ newC.status ∨
          oldC.nextHearing ≠ newC.nextHearing ∨ oldC.judge ≠ newC.judge ∨
          oldC.court ≠ newC.court ∨ oldC.title ≠ newC.title) :=
        fun hd => hc ((checkForSignificantUpdates_iff oldC newC).mpr hd)
      simp [hb, hnd]
  · intro ⟨h1, h2, h3, h4, h5⟩
    have hb : checkForSignificantUpdates oldC newC = false := by
      by_contra hne
      have := (checkForSignificantUpdates_iff oldC newC).mp
        (Bool.of_not_eq_false hne)
      tauto
    simp [hb]

/-- Witness for C1 at a concrete environment where the status changed. -/
theorem caseSync_notifies_iff_changed_w :
    ∃ r, processCaseSync caseSyncEnvW "c-1" = .ok r ∧
      (∀ f ∈ caseSyncEnvW.followersOf "c-1",
        ((∃ j ∈ r.enqueued, j.userId = f.userId) ↔
          (caseOldW.status ≠ caseNewW.status ∨
            caseOldW.nextHearing ≠ caseNewW.nextHearing ∨
            caseOldW.judge ≠ caseNewW.judge ∨ caseOldW.court ≠ caseNewW.court ∨
            caseOldW.title ≠ caseNewW.title))) ∧
      ((caseOldW.status = caseNewW.status ∧
        caseOldW.nextHearing = caseNewW.nextHearing ∧
        caseOldW.judge = caseNewW.judge ∧ caseOldW.court = caseNewW.court ∧
        caseOldW.title = caseNewW.title) → r.enqueued = []) :=
  caseSync_notifies_iff_changed caseSyncEnvW "c-1" caseOldW caseNewW rfl rfl

/-- Unfolded behaviour of the batch fold, by induction over the id list, for
any starting accumulator. -/
lemma batchFold_spec (env : CaseSyncEnv) :
    ∀ (caseIds : List String) (acc : BatchResults),
      (caseIds.foldl (batchStep env) acc).successful =
          acc.successful + (caseIds.filter (fun c =>
            match processCaseSync env c with
            | .ok _ => true
            | .error _ => false)).length ∧
      (caseIds.foldl (batchStep env) acc).failed =
          acc.failed + (caseIds.filter (fun c =>
            match processCaseSync env c with
            | .ok _ => false
            | .error _ => true)).length ∧
      (caseIds.foldl (batchStep env) acc).errors =
          acc.errors ++ caseIds.filterMap (fun c =>
            match processCaseSync env c with
            | .ok _ => none
            | .error e => some ("Case " ++ c ++ ": " ++ e))
  | [], acc => by simp
  | c :: rest, acc => by
    obtain ⟨ih1, ih2, ih3⟩ := batchFold_spec env rest (batchStep env acc c)
    cases h : processCaseSync env c <;>
      simp_all [batchStep, h, Nat.add_assoc, Nat.add_comm, Nat.add_left_comm]

/-- C2: for every id list, the batch sync's successful and failed counts sum
to the list length, each failing case contributes exactly one entry to the
error list, and every case of the list is processed regardless of earlier
failures (the counts and errors are pointwise functions of every element). -/
theorem batchCaseSync_spec (env : CaseSyncEnv) (caseIds : List String) :
    (processBatchCaseSync env caseIds).successful +
        (processBatchCaseSync env caseIds).failed = caseIds.length ∧
      (processBatchCaseSync env caseIds).successful =
        (caseIds.filter (fun c =>
          match processCaseSync env c with
          | .ok _ => true
          | .error _ => false)).length ∧
      (processBatchCaseSync env caseIds).failed =
        (caseIds.filter (fun c =>
          match processCaseSync env c with
          | .ok _ => false
          | .error _ => true)).length ∧
      (processBatchCaseSync env caseIds).errors =
        caseIds.filterMap (fun c =>
          match processCaseSync env c with
          | .ok _ => none
          | .error e => some ("Case " ++ c ++ ": " ++ e)) ∧
      (processBatchCaseSync env caseIds).errors.length =
        (processBatchCaseSync env caseIds).failed := by
  obtain ⟨h1, h2, h3⟩ := batchFold_spec env caseIds ⟨0, 0, []⟩
  have hsum : ∀ l : List String,
      (l.filter (fun c =>
        match processCaseSync env c with
        | .ok _ => true
        | .error _ => false)).length +
      (l.filter (fun c =>
        match processCaseSync env c with
        | .ok _ => false
        | .error _ => true)).length = l.length := by
    intro l
    induction l with
    | nil => simp
    | cons c rest ih =>
      cases h : processCaseSync env c <;> simp [h, ih] <;> omega
  have hlen : ∀ l : List String,
      (l.filterMap (fun c =>
        match processCaseSync env c with
        | .ok _ => none
        | .error e => some ("Case " ++ c ++ ": " ++ e))).length =
      (l.filter (fun c =>
        match processCaseSync env c with
        | .ok _ => false
        | .error _ => true)).length := by
    intro l
    induction l with
    | nil => simp
    | cons c rest ih =>
      cases h : processCaseSync env c <;> simp [h, ih]
  refine ⟨?_, ?_, ?_, ?_, ?_⟩ <;>
    simp_all [processBatchCaseSync]

/-- The workload comparator is transitive. -/
lemma workloadLe_trans : ∀ a b c : ModeratorWorkload,
    workloadLe a b → workloadLe b c → workloadLe a c := by
  intro a b c hab hbc
  simp only [workloadLe, decide_eq_true_eq] at *
  omega

/-- The workload comparator is total. -/
lemma workloadLe_total : ∀ a b : ModeratorWorkload,
    workloadLe a b || workloadLe b a := by
  intro a b
  simp only [workloadLe, Bool.or_eq_true, decide_eq_true_eq]
  exact Nat.le_total _ _

/-- The head of the sorted workload list is a least-busy entry of the input. -/
lemma sortedWorkloads_head_min (ws : List ModeratorWorkload) (hne : ws ≠ []) :
    ∃ m, (sortedWorkloads ws).head? = some m ∧ m ∈ ws ∧
      ∀ x ∈ ws, m.workload ≤ x.workload := by
  have hperm := List.mergeSort_perm ws workloadLe
  have hpair := List.sorted_mergeSort workloadLe_trans workloadLe_total ws
  cases hs : ws.mergeSort workloadLe with
  | nil =>
    exact absurd (List.length_eq_zero.mp (by
      simpa [hs] using hperm.length_eq.symm)) hne
  | cons m t =>
    refine ⟨m, by simp [sortedWorkloads, hs], ?_, ?_⟩
    · exact List.mem_mergeSort.mp (hs ▸ List.mem_cons_self m t)
    · intro x hx
      have hx' : x ∈ m :: t := hs ▸ List.mem_mergeSort.mpr hx
      rcases List.mem_cons.mp hx' with h | h
      · exact h ▸ le_refl _
      · have := (List.pairwise_cons.mp (hs ▸ hpair)).1 x h
        simpa [workloadLe, decide_eq_true_eq] using this

/-- Membership in the available list. -/
lemma mem_availableModerators {ws : List ModeratorWorkload}
    {m : ModeratorWorkload} :
    m ∈ availableModerators ws ↔ m ∈ ws ∧ m.workload < 10 := by
  simp [availableModerators, sortedWorkloads, List.mem_filter]

/-- The available list is nonempty when some input entry has workload < 10. -/
lemma availableModerators_pos {ws : List ModeratorWorkload}
    (h : ∃ m ∈ ws, m.workload < 10) : 0 < (availableModerators ws).length := by
  obtain ⟨m, hm, hw⟩ := h
  exact List.length_pos.mpr
    (List.ne_nil_of_mem (mem_availableModerators.mpr ⟨hm, hw⟩))

/-- The random index `Math.floor(rand * n)` is in range for `rand ∈ [0, 1)`. -/
lemma floor_rand_lt {rand : ℚ} (h0 : 0 ≤ rand) (h1 : rand < 1)
    {n : Nat} (hn : 0 < n) : (⌊rand * (n : ℚ)⌋).toNat < n := by
  have hnn : (0 : ℚ) ≤ rand * n := mul_nonneg h0 (by positivity)
  have hlt : rand * (n : ℚ) < n := by
    calc rand * (n : ℚ) < 1 * n :=
          mul_lt_mul_of_pos_right h1 (by exact_mod_cast hn)
      _ = n := one_mul _
  have hfl : ⌊rand * (n : ℚ)⌋ < (n : ℤ) := Int.floor_lt.mpr (by exact_mod_cast hlt)
  have hge : (0 : ℤ) ≤ ⌊rand * (n : ℚ)⌋ := Int.floor_nonneg.mpr hnn
  omega

/-- C3: with no active moderators the assignment is `undefined`; for `HIGH`
priority it is a least-busy moderator (the first such entry of the stable
sort, hence deterministic within a call); for other priorities it is the
entry of the available (workload < 10) list at index `⌊rand·n⌋`, which lies
in that list, and each index `i` is selected exactly on the rand-interval
`[i/n, (i+1)/n)` (uniform for uniform `rand`); with no available entry the
least-busy moderator is returned. -/
theorem findBestModerator_spec (ws : List ModeratorWorkload)
    (priority : ReportPriority) (rand : ℚ) (h0 : 0 ≤ rand) (h1 : rand < 1) :
    (ws = [] → findBestModerator (.ok ws) priority rand = none) ∧
    (ws ≠ [] → priority = .HIGH →
      ∃ m ∈ ws, findBestModerator (.ok ws) priority rand = some m.moderatorId ∧
        ∀ x ∈ ws, m.workload ≤ x.workload) ∧
    (priority ≠ .HIGH → (∃ m ∈ ws, m.workload < 10) →
      ∃ m ∈ ws, findBestModerator (.ok ws) priority rand = some m.moderatorId ∧
        m.workload < 10) ∧
    (priority ≠ .HIGH → (∃ m ∈ ws, m.workload < 10) →
      ∀ i : Nat, ∀ hi : i < (availableModerators ws).length,
        (i : ℚ) ≤ rand * (availableModerators ws).length →
        rand * (availableModerators ws).length < i + 1 →
        findBestModerator (.ok ws) priority rand =
          some ((availableModerators ws).get ⟨i, hi⟩).moderatorId) ∧
    (ws ≠ [] → priority ≠ .HIGH → (∀ m ∈ ws, ¬ m.workload < 10) →
      ∃ m ∈ ws, findBestModerator (.ok ws) priority rand = some m.moderatorId ∧
        ∀ x ∈ ws, m.workload ≤ x.workload) := by
  refine ⟨?_, ?_, ?_, ?_, ?_⟩
  · intro h
    simp [findBestModerator, selectModerator, h]
  · intro hne hp
    obtain ⟨m, hh, hm, hmin⟩ := sortedWorkloads_head_min ws hne
    refine ⟨m, hm, ?_, hmin⟩
    simp [findBestModerator, selectModerator, hp, hh,
      List.isEmpty_iff_eq_nil, hne]
  · intro hp hex
    have hpos := availableModerators_pos hex
    have hne : ws ≠ [] := by
      obtain ⟨m, hm, _⟩ := hex
      exact List.ne_nil_of_mem hm
    have hidx : (⌊rand * ((availableModerators ws).length : ℚ)⌋).toNat <
        (availableModerators ws).length := floor_rand_lt h0 h1 hpos
    set idx := (⌊rand * ((availableModerators ws).length : ℚ)⌋).toNat with hidxdef
    have hmem : (availableModerators ws).get ⟨idx, hidx⟩ ∈ availableModerators ws :=
      List.get_mem _ _ _
    obtain ⟨hmem', hw⟩ := mem_availableModerators.mp hmem
    refine ⟨_, hmem', ?_, hw⟩
    simp [findBestModerator, selectModerator, hp, hpos,
      List.isEmpty_iff, hne, ← hidxdef, List.getElem?_eq_getElem hidx,
      List.get_eq_getElem]
  · intro hp hex i hi hlow hhigh
    have hpos := availableModerators_pos hex
    have hne : ws ≠ [] := by
      obtain ⟨m, hm, _⟩ := hex
      exact List.ne_nil_of_mem hm
    have hfloor : ⌊rand * ((availableModerators ws).length : ℚ)⌋ = (i : ℤ) := by
      refine Int.floor_eq_iff.mpr ⟨by exact_mod_cast hlow, by push_cast; exact hhigh⟩
    simp [findBestModerator, selectModerator, hp, hpos, hfloor,
      List.isEmpty_iff, hne, List.getElem?_eq_getElem hi, List.get_eq_getElem]
  · intro hne hp hall
    have hzero : ¬ 0 < (availableModerators ws).length := by
      simp only [List.length_pos, ne_eq, not_not]
      by_contra hb
      obtain ⟨m, hm⟩ := List.exists_mem_of_ne_nil _ hb
      obtain ⟨hm', hw⟩ := mem_availableModerators.mp hm
      exact hall m hm' hw
    obtain ⟨m, hh, hm, hmin⟩ := sortedWorkloads_head_min ws hne
    refine ⟨m, hm, ?_, hmin⟩
    simp [findBestModerator, selectModerator, hp, hzero, hh,
      List.isEmpty_iff_eq_nil, hne]

/-- Witness for C3 at a concrete two-moderator workload list, `MEDIUM`
priority, `rand = 0`. -/
theorem findBestModerator_spec_w :
    (workloadsW = [] → findBestModerator (.ok workloadsW) .MEDIUM 0 = none) ∧
    (workloadsW ≠ [] → ReportPriority.MEDIUM = .HIGH →
      ∃ m ∈ workloadsW, findBestModerator (.ok workloadsW) .MEDIUM 0 =
          some m.moderatorId ∧
        ∀ x ∈ workloadsW, m.workload ≤ x.workload) ∧
    (ReportPriority.MEDIUM ≠ .HIGH → (∃ m ∈ workloadsW, m.workload < 10) →
      ∃ m ∈ workloadsW, findBestModerator (.ok workloadsW) .MEDIUM 0 =
          some m.moderatorId ∧ m.workload < 10) ∧
    (ReportPriority.MEDIUM ≠ .HIGH → (∃ m ∈ workloadsW, m.workload < 10) →
      ∀ i : Nat, ∀ hi : i < (availableModerators workloadsW).length,
        (i : ℚ) ≤ (0 : ℚ) * ((availableModerators workloadsW).length : ℚ) →
        (0 : ℚ) * ((availableModerators workloadsW).length : ℚ) < (i : ℚ) + 1 →
        findBestModerator (.ok workloadsW) .MEDIUM 0 =
          some ((availableModerators workloadsW).get ⟨i, hi⟩).moderatorId) ∧
    (workloadsW ≠ [] → ReportPriority.MEDIUM ≠ .HIGH →
      (∀ m ∈ workloadsW, ¬ m.workload < 10) →
      ∃ m ∈ workloadsW, findBestModerator (.ok workloadsW) .MEDIUM 0 =
          some m.moderatorId ∧
        ∀ x ∈ workloadsW, m.workload ≤ x.workload) :=
  findBestModerator_spec workloadsW .MEDIUM 0 (by norm_num) (by norm_num)

/-- A high-priority-keyword match forces the keyword phase to `HIGH`. -/
lemma keywordPriority_high_of_match {content : String}
    (hkw : ∃ k ∈ highPriorityKeywords, strIncludes content k = true) :
    keywordPriority content = .HIGH := by
  obtain ⟨k, hk, hinc⟩ := hkw
  have hlen : 0 < (highPriorityKeywords.filter
      (fun k => strIncludes content k)).length :=
    List.length_pos.mpr (List.ne_nil_of_mem (List.mem_filter.mpr ⟨hk, hinc⟩))
  simp [keywordPriority, hlen]

/-- When the content matches a high-priority keyword the whole priority
computation yields `HIGH`: none of the later rules ever lowers `HIGH`. -/
lemma triagePriority_high_of_keyword (r : Report) (e : Nat) (now : Int)
    (hkw : ∃ k ∈ highPriorityKeywords,
      strIncludes (lowerStr (r.title ++ " " ++ r.description)) k = true) :
    triagePriority r e now = .HIGH := by
  simp [triagePriority, keywordPriority_high_of_match hkw,
    deptBump, evidenceBump, ongoingBump]

/-- C4: the triage score is monotone in high-priority keyword matches:
extending the title+description so that it additionally contains a
high-priority keyword (department, evidence count and creation time
unchanged) never lowers the computed priority. -/
theorem triage_keyword_monotone (orig ext : Report) (e : Nat) (now : Int)
    (modLookup : Except String (List ModeratorWorkload)) (rand : ℚ)
    (hdep : ext.department = orig.department)
    (htime : ext.createdAt = orig.createdAt)
    (hsub : strIncludes (lowerStr (ext.title ++ " " ++ ext.description))
      (lowerStr (orig.title ++ " " ++ orig.description)) = true)
    (hkw : ∃ k ∈ highPriorityKeywords,
      strIncludes (lowerStr (ext.title ++ " " ++ ext.description)) k = true) :
    prioRank (performAutoTriage orig e now modLookup rand).priority ≤
      prioRank (performAutoTriage ext e now modLookup rand).priority := by
  have horig : (performAutoTriage orig e now modLookup rand).priority =
      triagePriority orig e now := rfl
  have hext : (performAutoTriage ext e now modLookup rand).priority =
      triagePriority ext e now := rfl
  rw [horig, hext, triagePriority_high_of_keyword ext e now hkw]
  cases triagePriority orig e now <;> decide

/-- Witness for C4: adding " bribe" to the description raises (here:
keeps) the priority; the hypotheses are checked by evaluation. -/
theorem triage_keyword_monotone_w :
    prioRank (performAutoTriage
        { id := "r1", title := "complaint", description := "details",
          department := "health", createdAt := 0 } 0 0 (.ok []) 0).priority ≤
      prioRank (performAutoTriage
        { id := "r1", title := "complaint", description := "details bribe",
          department := "health", createdAt := 0 } 0 0 (.ok []) 0).priority :=
  triage_keyword_monotone
    { id := "r1", title := "complaint", description := "details",
      department := "health", createdAt := 0 }
    { id := "r1", title := "complaint", description := "details bribe",
      department := "health", createdAt := 0 }
    0 0 (.ok []) 0 rfl rfl (by decide) (by decide)

/-- The keyword phase never yields `LOW`. -/
lemma keywordPriority_ne_low (content : String) :
    keywordPriority content ≠ .LOW := by
  simp only [keywordPriority]
  split_ifs <;> simp

/-- The evidence escalation is the identity off `LOW`. -/
lemma evidenceBump_eq_self {p : ReportPriority} (h : p ≠ .LOW) :
    evidenceBump p = p := by
  cases p
  · exact absurd rfl h
  · rfl
  · rfl

/-- The department escalation never yields `LOW`. -/
lemma deptBump_ne_low (p : ReportPriority) : deptBump p ≠ .LOW := by
  cases p <;> simp [deptBump]

/-- Since the value reaching the evidence rule is never `LOW`, the computed
priority does not depend on the evidence count at all. -/
lemma triagePriority_evidence_irrelevant (r : Report) (e e' : Nat) (now : Int) :
    triagePriority r e now = triagePriority r e' now := by
  have h2 := keywordPriority_ne_low (lowerStr (r.title ++ " " ++ r.description))
  have h3 : (if highPriorityDepartments.any
      (fun dept => strIncludes (lowerStr r.department) dept) then
        deptBump (keywordPriority (lowerStr (r.title ++ " " ++ r.description)))
      else keywordPriority (lowerStr (r.title ++ " " ++ r.description))) ≠
      .LOW := by
    split_ifs
    · exact deptBump_ne_low _
    · exact h2
  simp only [triagePriority, evidenceBump_eq_self h3, ite_self]

/-- The full priority computation never yields `LOW`. -/
lemma triagePriority_ne_low (r : Report) (e : Nat) (now : Int) :
    triagePriority r e now ≠ .LOW := by
  have h := keywordPriority_ne_low (lowerStr (r.title ++ " " ++ r.description))
  simp only [triagePriority]
  cases hk : keywordPriority (lowerStr (r.title ++ " " ++ r.description)) <;>
    [exact absurd hk h; skip; skip] <;>
    split_ifs <;> simp_all [deptBump, evidenceBump, ongoingBump]

/-- C9: triage never produces `LOW` priority — the keyword phase already
yields `MEDIUM` or `HIGH` and no rule lowers priority — so the LOW-report
escalation branches are unreachable, the resulting status is always
`UNDER_REVIEW` or `INVESTIGATING`, and the non-HIGH (random-assignment)
path applies exactly to `MEDIUM` reports. -/
theorem triage_never_low (r : Report) (e : Nat) (now : Int)
    (modLookup : Except String (List ModeratorWorkload)) (rand : ℚ) :
    keywordPriority (lowerStr (r.title ++ " " ++ r.description)) ≠ .LOW ∧
    (performAutoTriage r e now modLookup rand).priority ≠ .LOW ∧
    ((performAutoTriage r e now modLookup rand).priority = .MEDIUM ∨
      (performAutoTriage r e now modLookup rand).priority = .HIGH) ∧
    ((performAutoTriage r e now modLookup rand).priority ≠ .HIGH →
      (performAutoTriage r e now modLookup rand).priority = .MEDIUM) ∧
    ((performAutoTriage r e now modLookup rand).status =
      if (performAutoTriage r e now modLookup rand).priority = .HIGH
        then "INVESTIGATING" else "UNDER_REVIEW") ∧
    ((performAutoTriage r e now modLookup rand).status = "UNDER_REVIEW" ∨
      (performAutoTriage r e now modLookup rand).status = "INVESTIGATING") ∧
    (∀ e', (performAutoTriage r e now modLookup rand).priority =
      triagePriority r e' now) ∧
    (performAutoTriage r e now modLookup rand).assignedTo =
      findBestModerator modLookup
        (performAutoTriage r e now modLookup rand).priority rand := by
  have hp : (performAutoTriage r e now modLookup rand).priority =
      triagePriority r e now := rfl
  have hnl := triagePriority_ne_low r e now
  have hst : (performAutoTriage r e now modLookup rand).status =
      (if triagePriority r e now = .HIGH then "INVESTIGATING"
        else "UNDER_REVIEW") := rfl
  refine ⟨keywordPriority_ne_low _, hp ▸ hnl, ?_, ?_, ?_, ?_,
    fun e' => hp.trans (triagePriority_evidence_irrelevant r e e' now), rfl⟩
  · rw [hp]; cases h : triagePriority r e now
    · exact absurd h hnl
    · exact Or.inl rfl
    · exact Or.inr rfl
  · rw [hp]; cases h : triagePriority r e now <;> simp_all
  · rw [hst, hp]
  · rw [hst]; split_ifs <;> simp

/-- Witness for C9 (the theorem's only binders are the inputs, but its
conjunction contains implications): instantiated at a concrete report. -/
theorem triage_never_low_w :
    keywordPriority (lowerStr ("t" ++ " " ++ "d")) ≠ .LOW ∧
    (performAutoTriage
        { id := "r2", title := "t", description := "d",
          department := "health", createdAt := 0 } 0 0 (.ok []) 0).priority ≠ .LOW ∧
    ((performAutoTriage
        { id := "r2", title := "t", description := "d",
          department := "health", createdAt := 0 } 0 0 (.ok []) 0).priority = .MEDIUM ∨
      (performAutoTriage
        { id := "r2", title := "t", description := "d",
          department := "health", createdAt := 0 } 0 0 (.ok []) 0).priority = .HIGH) ∧
    ((performAutoTriage
        { id := "r2", title := "t", description := "d",
          department := "health", createdAt := 0 } 0 0 (.ok []) 0).priority ≠ .HIGH →
      (performAutoTriage
        { id := "r2", title := "t", description := "d",
          department := "health", createdAt := 0 } 0 0 (.ok []) 0).priority = .MEDIUM) ∧
    ((performAutoTriage
        { id := "r2", title := "t", description := "d",
          department := "health", createdAt := 0 } 0 0 (.ok []) 0).status =
      if (performAutoTriage
        { id := "r2", title := "t", description := "d",
          department := "health", createdAt := 0 } 0 0 (.ok []) 0).priority = .HIGH
        then "INVESTIGATING" else "UNDER_REVIEW") ∧
    ((performAutoTriage
        { id := "r2", title := "t", description := "d",
          department := "health", createdAt := 0 } 0 0 (.ok []) 0).status =
        "UNDER_REVIEW" ∨
      (performAutoTriage
        { id := "r2", title := "t", description := "d",
          department := "health", createdAt := 0 } 0 0 (.ok []) 0).status =
        "INVESTIGATING") ∧
    (∀ e', (performAutoTriage
        { id := "r2", title := "t", description := "d",
          department := "health", createdAt := 0 } 0 0 (.ok []) 0).priority =
      triagePriority
        { id := "r2", title := "t", description := "d",
          department := "health", createdAt := 0 } e' 0) ∧
    (performAutoTriage
        { id := "r2", title := "t", description := "d",
          department := "health", createdAt := 0 } 0 0 (.ok []) 0).assignedTo =
      findBestModerator (.ok [])
        (performAutoTriage
          { id := "r2", title := "t", description := "d",
            department := "health", createdAt := 0 } 0 0 (.ok []) 0).priority 0 :=
  triage_never_low
    { id := "r2", title := "t", description := "d",
      department := "health", createdAt := 0 } 0 0 (.ok []) 0

/-- C10: a failure while assigning or notifying never fails the triage job:
`findBestModerator` maps any internal error to `undefined`,
`notifyModerators` swallows any error, and `processReportTriage` succeeds
(persisting the status update, with no assignee) even when the moderator
lookup and the notification enqueue throw. -/
theorem reportTriage_error_isolated (env : ReportTriageEnv) (reportId : String)
    (r : Report) (em : String)
    (hfind : env.findReport reportId = some r)
    (hupd : ∀ s a, env.updateReport reportId s a = .ok ()) :
    (∀ (e : String) (p : ReportPriority) (rand : ℚ),
      findBestModerator (.error e) p rand = none) ∧
    (∀ (e : String) (q : ModNotifJob → Bool), notifyModerators (.error e) q = []) ∧
    (∃ out, processReportTriage env reportId = .ok out ∧
      (env.modLookup = .error em → out.1.assignedTo = none)) := by
  refine ⟨fun e p rand => rfl, fun e q => rfl, ?_⟩
  refine ⟨(performAutoTriage r env.evidenceCount env.now env.modLookup env.rand,
    if (performAutoTriage r env.evidenceCount env.now env.modLookup
        env.rand).priority = .HIGH then
      notifyModerators env.modAdminLookup env.enqueueOk
    else []), ?_, ?_⟩
  · simp only [processReportTriage, hfind, hupd]
  · intro herr
    show findBestModerator env.modLookup _ env.rand = none
    rw [herr]
    rfl

/-- A concrete triage environment whose moderator lookup and notification
fan-out both throw. -/
def triageEnvW : ReportTriageEnv :=
  { findReport := fun _ => some
      { id := "r3", title := "t", description := "d",
        department := "police", createdAt := 0 }
    evidenceCount := 0
    now := 0
    modLookup := .error "db down"
    rand := 0
    updateReport := fun _ _ _ => .ok ()
    modAdminLookup := .error "db down"
    enqueueOk := fun _ => false }

/-- Witness for C10 at an environment whose lookups throw. -/
theorem reportTriage_error_isolated_w :
    (∀ (e : String) (p : ReportPriority) (rand : ℚ),
      findBestModerator (.error e) p rand = none) ∧
    (∀ (e : String) (q : ModNotifJob → Bool), notifyModerators (.error e) q = []) ∧
    (∃ out, processReportTriage triageEnvW "r3" = .ok out ∧
      (triageEnvW.modLookup = .error "db down" → out.1.assignedTo = none)) :=
  reportTriage_error_isolated triageEnvW "r3"
    { id := "r3", title := "t", description := "d",
      department := "police", createdAt := 0 }
    "db down" rfl (fun _ _ => rfl)

/-- C5: SOS dispatch contacts exactly the documented fixed service set of
the priority tier; the services are called in order and the job throws
exactly when some selected service call fails (with the first failing
service named in the error). -/
theorem sosDispatch_services (priority : SosPriority) (callOk : String → Bool) :
    ((priority = .CRITICAL ∨ priority = .HIGH) →
      servicesFor priority = ["Police", "Medical", "Fire Department"]) ∧
    (priority = .MEDIUM → servicesFor priority = ["Police"]) ∧
    (priority = .LOW → servicesFor priority = ["Local Security"]) ∧
    ((∃ res, (processSosDispatch priority callOk).1 = .ok res) ↔
      ∀ s ∈ servicesFor priority, callOk s = true) ∧
    (∀ s, (servicesFor priority).find? (fun s => !callOk s) = some s →
      (processSosDispatch priority callOk).1 = .error ("Failed to notify " ++ s)) := by
  refine ⟨?_, ?_, ?_, ?_, ?_⟩
  · rintro (h | h) <;> simp [servicesFor, h]
  · intro h; simp [servicesFor, h]
  · intro h; cases priority <;> simp_all [servicesFor]
  · constructor
    · rintro ⟨res, hres⟩ s hs
      by_contra hc
      have hcf : callOk s = false := by
        cases h : callOk s
        · rfl
        · exact absurd h hc
      have hne : (servicesFor priority).find? (fun s => !callOk s) ≠ none := by
        intro hn
        have := List.find?_eq_none.mp hn s hs
        simp [hcf] at this
      obtain ⟨t, ht⟩ := Option.ne_none_iff_exists'.mp hne
      simp [processSosDispatch, ht] at hres
    · intro h
      have hn : (servicesFor priority).find? (fun s => !callOk s) = none :=
        List.find?_eq_none.mpr (fun x hx => by simp [h x hx])
      exact ⟨servicesFor priority, by simp [processSosDispatch, hn]⟩
  · intro s hs
    simp [processSosDispatch, hs]

/-- Witness for C5 at `CRITICAL` priority with all calls succeeding. -/
theorem sosDispatch_services_w :
    ((SosPriority.CRITICAL = .CRITICAL ∨ SosPriority.CRITICAL = .HIGH) →
      servicesFor .CRITICAL = ["Police", "Medical", "Fire Department"]) ∧
    (SosPriority.CRITICAL = .MEDIUM → servicesFor .CRITICAL = ["Police"]) ∧
    (SosPriority.CRITICAL = .LOW → servicesFor .CRITICAL = ["Local Security"]) ∧
    ((∃ res, (processSosDispatch .CRITICAL (fun _ => true)).1 = .ok res) ↔
      ∀ s ∈ servicesFor .CRITICAL, (fun (_ : String) => true) s = true) ∧
    (∀ s, (servicesFor .CRITICAL).find? (fun s => !(fun (_ : String) => true) s) =
        some s →
      (processSosDispatch .CRITICAL (fun _ => true)).1 =
        .error ("Failed to notify " ++ s)) :=
  sosDispatch_services .CRITICAL (fun _ => true)

/-- A failed attempt produces exactly one `PENDING` status write. -/
lemma sos_attempt_fail (p : SosPriority) (c : String → Bool)
    (h : (servicesFor p).all c = false) :
    ∃ e, processSosDispatch p c = (.error e, .PENDING) := by
  have : ∃ s ∈ servicesFor p, c s = false := by
    by_contra hc
    push_neg at hc
    have : (servicesFor p).all c = true :=
      List.all_eq_true.mpr (fun x hx => by
        cases hcs : c x
        · exact absurd hcs (hc x hx)
        · rfl)
    simp [this] at h
  obtain ⟨s, hs, hcs⟩ := this
  have hne : (servicesFor p).find? (fun s => !c s) ≠ none := by
    intro hn
    have := List.find?_eq_none.mp hn s hs
    simp [hcs] at this
  obtain ⟨t, ht⟩ := Option.ne_none_iff_exists'.mp hne
  exact ⟨"Failed to notify " ++ t, by simp [processSosDispatch, ht]⟩

/-- A successful attempt produces exactly one `ACKNOWLEDGED` status write. -/
lemma sos_attempt_ok (p : SosPriority) (c : String → Bool)
    (h : (servicesFor p).all c = true) :
    processSosDispatch p c = (.ok (servicesFor p), .ACKNOWLEDGED) := by
  have hn : (servicesFor p).find? (fun s => !c s) = none :=
    List.find?_eq_none.mpr (fun x hx => by
      simp [List.all_eq_true.mp h x hx])
  simp [processSosDispatch, hn]

/-- When every attempt within the budget fails, the write trace is one
`PENDING` per attempt. -/
lemma sosRetryWrites_all_fail (p : SosPriority) (f : Nat → String → Bool) :
    ∀ (b a : Nat), (∀ k, k < b → sosAttemptFails p f (a + k)) →
      sosRetryWrites p f a b = List.replicate b .PENDING
  | 0, a, _ => rfl
  | b + 1, a, h => by
    have h0 : (servicesFor p).all (f a) = false := by
      have := h 0 (Nat.succ_pos b)
      simpa [sosAttemptFails] using this
    obtain ⟨e, he⟩ := sos_attempt_fail p (f a) h0
    have ih := sosRetryWrites_all_fail p f b (a + 1)
      (fun k hk => by
        have := h (k + 1) (Nat.succ_lt_succ hk)
        simpa [Nat.add_assoc, Nat.add_comm 1 k] using this)
    simp [sosRetryWrites, he, ih, List.replicate_succ]

/-- When the first success is attempt `a + k` (all earlier attempts failing)
and it is within budget, the trace is `k` `PENDING` writes followed by one
`ACKNOWLEDGED`. -/
lemma sosRetryWrites_first_ok (p : SosPriority) (f : Nat → String → Bool) :
    ∀ (b k a : Nat), k < b → (∀ j, j < k → sosAttemptFails p f (a + j)) →
      (servicesFor p).all (f (a + k)) = true →
      sosRetryWrites p f a b = List.replicate k .PENDING ++ [.ACKNOWLEDGED]
  | 0, k, a, hk, _, _ => absurd hk (Nat.not_lt_zero k)
  | b + 1, 0, a, _, _, hok => by
    have := sos_attempt_ok p (f a) (by simpa using hok)
    simp [sosRetryWrites, this]
  | b + 1, k + 1, a, hk, hfail, hok => by
    have h0 : (servicesFor p).all (f a) = false := by
      have := hfail 0 (Nat.succ_pos k)
      simpa [sosAttemptFails] using this
    obtain ⟨e, he⟩ := sos_attempt_fail p (f a) h0
    have ih := sosRetryWrites_first_ok p f b k (a + 1)
      (Nat.lt_of_succ_lt_succ hk)
      (fun j hj => by
        have := hfail (j + 1) (Nat.succ_lt_succ hj)
        simpa [Nat.add_assoc, Nat.add_comm 1 j] using this)
      (by
        have : a + 1 + k = a + (k + 1) := by omega
        rw [this]; exact hok)
    simp [sosRetryWrites, he, ih, List.replicate_succ]

/-- Every status write of a dispatch run is `PENDING` or `ACKNOWLEDGED`. -/
lemma sosRetryWrites_mem (p : SosPriority) (f : Nat → String → Bool) :
    ∀ (b a : Nat), ∀ w ∈ sosRetryWrites p f a b,
      w = SosStatus.PENDING ∨ w = SosStatus.ACKNOWLEDGED
  | 0, a, w, hw => absurd hw (List.not_mem_nil w)
  | b + 1, a, w, hw => by
    rcases hc : (servicesFor p).all (f a) with _ | _
    · obtain ⟨e, he⟩ := sos_attempt_fail p (f a) hc
      rw [sosRetryWrites, he] at hw
      rcases List.mem_cons.mp hw with h | h
      · exact Or.inl h
      · exact sosRetryWrites_mem p f b (a + 1) w h
    · have := sos_attempt_ok p (f a) hc
      rw [sosRetryWrites, this] at hw
      simp at hw
      exact Or.inr hw

/-- Counterexample to C6 as stated: with a retry budget of 3, an attempt
sequence whose first attempt fails and whose second succeeds writes
`PENDING` to the incident on the first failure — although the retry budget
is not exhausted and the run ends `ACKNOWLEDGED` — so `PENDING` is not
written only when the retry budget is used up. -/
theorem sosStatus_pending_before_exhaustion :
    sosDispatchRun .HIGH flakyCalls 3 = [.PENDING, .ACKNOWLEDGED] ∧
    SosStatus.PENDING ∈ sosDispatchRun .HIGH flakyCalls 3 ∧
    (sosDispatchRun .HIGH flakyCalls 3).getLast? = some .ACKNOWLEDGED ∧
    (sosDispatchRun .HIGH flakyCalls 3).length < 3 := by decide

/-- C6 (amended): on a successful attempt the incident status is set to
`ACKNOWLEDGED` and the run stops; the status is set to `PENDING` on every
failed attempt — not only when the retry budget is exhausted — so an
exhausted run leaves the incident `PENDING` for manual intervention; and the
dispatch job writes no status other than `PENDING` and `ACKNOWLEDGED`. -/
theorem sosStatus_writes_spec (p : SosPriority) (f : Nat → String → Bool)
    (budget : Nat) :
    (∀ w ∈ sosDispatchRun p f budget,
      w = SosStatus.PENDING ∨ w = SosStatus.ACKNOWLEDGED) ∧
    ((∀ k, k < budget → sosAttemptFails p f k) →
      sosDispatchRun p f budget = List.replicate budget .PENDING) ∧
    (∀ k, k < budget → (∀ j, j < k → sosAttemptFails p f j) →
      (servicesFor p).all (f k) = true →
      sosDispatchRun p f budget = List.replicate k .PENDING ++ [.ACKNOWLEDGED]) := by
  refine ⟨sosRetryWrites_mem p f budget 0, ?_, ?_⟩
  · intro h
    exact sosRetryWrites_all_fail p f budget 0 (fun k hk => by
      simpa using h k hk)
  · intro k hk hfail hok
    exact sosRetryWrites_first_ok p f budget k 0 hk
      (fun j hj => by simpa using hfail j hj) (by simpa using hok)

/-- Witness for the amended C6, at `LOW` priority, budget 2, every call
failing: the run writes `PENDING` twice and exhausts. -/
theorem sosStatus_writes_spec_w :
    (∀ w ∈ sosDispatchRun .LOW (fun _ _ => false) 2,
      w = SosStatus.PENDING ∨ w = SosStatus.ACKNOWLEDGED) ∧
    ((∀ k, k < 2 → sosAttemptFails .LOW (fun _ _ => false) k) →
      sosDispatchRun .LOW (fun _ _ => false) 2 = List.replicate 2 .PENDING) ∧
    (∀ k, k < 2 → (∀ j, j < k → sosAttemptFails .LOW (fun _ _ => false) j) →
      (servicesFor .LOW).all ((fun _ _ => false) k) = true →
      sosDispatchRun .LOW (fun _ _ => false) 2 =
        List.replicate k .PENDING ++ [.ACKNOWLEDGED]) :=
  sosStatus_writes_spec .LOW (fun _ _ => false) 2

/-- C7: the health check returns `unhealthy` exactly when some worker is not
running; with all workers running it returns `degraded` exactly when some
queue has more than 10 failed jobs, and `healthy` otherwise; the worker
verdict takes precedence, and the per-worker running states are returned. -/
theorem jobHealth_spec (ws : List WorkerState) (qs : List QueueStats) :
    ((checkJobSystemHealth ws qs).1 = .unhealthy ↔ ∃ w ∈ ws, w.running = false) ∧
    ((∀ w ∈ ws, w.running = true) →
      ((checkJobSystemHealth ws qs).1 = .degraded ↔ ∃ q ∈ qs, 10 < q.failed)) ∧
    ((∀ w ∈ ws, w.running = true) → (∀ q ∈ qs, q.failed ≤ 10) →
      (checkJobSystemHealth ws qs).1 = .healthy) ∧
    (checkJobSystemHealth ws qs).2 =
      ws.map (fun w => (w.name, if w.running then "running" else "stopped")) := by
  classical
  by_cases hA : ∀ w ∈ ws, w.running = true
  · have hallT : (ws.map (fun w =>
        (w.name, if w.running then "running" else "stopped"))).all
          (fun p => p.2 = "running") = true := by
      apply List.all_eq_true.mpr
      intro x hx
      obtain ⟨w, hw, rfl⟩ := List.mem_map.mp hx
      simp [hA w hw]
    have hstatus : (checkJobSystemHealth ws qs).1 =
        (if qs.any (fun q => 10 < q.failed) then Health.degraded
          else Health.healthy) := by
      simp [checkJobSystemHealth, hallT]
    refine ⟨?_, ?_, ?_, rfl⟩
    · rw [hstatus]
      constructor
      · intro h
        split_ifs at h <;> cases h
      · rintro ⟨w, hw, hwr⟩
        rw [hA w hw] at hwr
        exact absurd hwr (by decide)
    · intro _
      rw [hstatus]
      by_cases hq : qs.any (fun q => 10 < q.failed) = true
      · simp only [hq, if_true, true_iff]
        obtain ⟨q, hq', h10⟩ := List.any_eq_true.mp hq
        exact ⟨q, hq', by simpa using h10⟩
      · have hq' : qs.any (fun q => 10 < q.failed) = false :=
          Bool.not_eq_true _ ▸ Bool.of_not_eq_true hq
        simp only [hq', Bool.false_eq_true, if_false]
        constructor
        · intro h; cases h
        · rintro ⟨q, hqm, h10⟩
          have := List.any_eq_false.mp hq' q hqm
          simp [h10] at this
    · intro _ hq10
      rw [hstatus]
      have hq' : qs.any (fun q => 10 < q.failed) = false := by
        apply List.any_eq_false.mpr
        intro q hq
        simpa using Nat.not_lt.mpr (hq10 q hq)
      simp [hq']
  · push_neg at hA
    obtain ⟨w, hw, hwr⟩ := hA
    have hwrf : w.running = false := by
      cases h : w.running
      · rfl
      · exact absurd h hwr
    have hallF : (ws.map (fun w =>
        (w.name, if w.running then "running" else "stopped"))).all
          (fun p => p.2 = "running") = false := by
      apply List.all_eq_false.mpr
      refine ⟨(w.name, if w.running then "running" else "stopped"),
        List.mem_map_of_mem _ hw, ?_⟩
      simp [hwrf]
    have hstatus : (checkJobSystemHealth ws qs).1 = .unhealthy := by
      simp [checkJobSystemHealth, hallF]
    refine ⟨?_, ?_, ?_, rfl⟩
    · rw [hstatus]
      exact ⟨fun _ => ⟨w, hw, hwrf⟩, fun _ => rfl⟩
    · intro hA'
      rw [hA' w hw] at hwrf
      exact absurd hwrf (by decide)
    · intro hA' _
      rw [hA' w hw] at hwrf
      exact absurd hwrf (by decide)

/-- Witness for C7 at one stopped worker and one clean queue. -/
theorem jobHealth_spec_w :
    ((checkJobSystemHealth [workerStoppedW] [queueCleanW]).1 = .unhealthy ↔
      ∃ w ∈ [workerStoppedW], w.running = false) ∧
    ((∀ w ∈ [workerStoppedW], w.running = true) →
      ((checkJobSystemHealth [workerStoppedW] [queueCleanW]).1 = .degraded ↔
        ∃ q ∈ [queueCleanW], 10 < q.failed)) ∧
    ((∀ w ∈ [workerStoppedW], w.running = true) →
      (∀ q ∈ [queueCleanW], q.failed ≤ 10) →
      (checkJobSystemHealth [workerStoppedW] [queueCleanW]).1 = .healthy) ∧
    (checkJobSystemHealth [workerStoppedW] [queueCleanW]).2 =
      [workerStoppedW].map
        (fun w => (w.name, if w.running then "running" else "stopped")) :=
  jobHealth_spec [workerStoppedW] [queueCleanW]

/-- The enqueue loop only emits jobs from its input list. -/
lemma enqueueLoop_subset (ok : ModNotifJob → Bool) :
    ∀ (l : List ModNotifJob), ∀ j ∈ enqueueLoop ok l, j ∈ l
  | [], j, hj => absurd hj (List.not_mem_nil j)
  | a :: rest, j, hj => by
    rw [enqueueLoop] at hj
    split_ifs at hj
    · rcases List.mem_cons.mp hj with h | h
      · exact h ▸ List.mem_cons_self a rest
      · exact List.mem_cons_of_mem a (enqueueLoop_subset ok rest j h)
    · exact absurd hj (List.not_mem_nil j)

/-- C8: any template name outside the fixed three-entry table renders the
generic email (subject `NyayaMitra Notification`) and the generic SMS text;
in particular every notification `notifyModerators` enqueues uses the
`high-priority-report` template, which is not in the table, so it renders
the generic fallback. -/
theorem unknownTemplate_generic (t : String) (data : TemplateData)
    (nowLocale : String) (localeDateOf : String → String)
    (ht1 : t ≠ "sos-status-update") (ht2 : t ≠ "report-status-update")
    (ht3 : t ≠ "case-update") :
    generateEmailContent t data nowLocale localeDateOf = genericEmail ∧
    (generateEmailContent t data nowLocale localeDateOf).subject =
      "NyayaMitra Notification" ∧
    generateSMSContent t data nowLocale localeDateOf =
      "You have a new notification from NyayaMitra." ∧
    (∀ (lookup : Except String (List String)) (enq : ModNotifJob → Bool),
      ∀ j ∈ notifyModerators lookup enq,
        j.template = "high-priority-report" ∧
        generateEmailContent j.template data nowLocale localeDateOf =
          genericEmail ∧
        generateSMSContent j.template data nowLocale localeDateOf =
          "You have a new notification from NyayaMitra.") := by
  have hgen : ∀ u : String, u ≠ "sos-status-update" →
      u ≠ "report-status-update" → u ≠ "case-update" →
      generateEmailContent u data nowLocale localeDateOf = genericEmail ∧
      generateSMSContent u data nowLocale localeDateOf =
        "You have a new notification from NyayaMitra." := by
    intro u h1 h2 h3
    constructor
    · simp [generateEmailContent, h1, h2, h3, genericEmail]
    · simp [generateSMSContent, h1, h2, h3]
  obtain ⟨he, hs⟩ := hgen t ht1 ht2 ht3
  refine ⟨he, by rw [he]; rfl, hs, ?_⟩
  intro lookup enq j hj
  have htempl : j.template = "high-priority-report" := by
    cases lookup with
    | error e => exact absurd hj (by simp [notifyModerators])
    | ok mods =>
      have hj' := enqueueLoop_subset enq _ j hj
      obtain ⟨m, _, rfl⟩ := List.mem_map.mp hj'
      rfl
  obtain ⟨he', hs'⟩ := hgen "high-priority-report"
    (by decide) (by decide) (by decide)
  exact ⟨htempl, htempl ▸ he', htempl ▸ hs'⟩

/-- A concrete template data record. -/
def templateDataW : TemplateData :=
  { userName := "Asha Kumar", incidentId := "i-1", status := "ACKNOWLEDGED",
    title := "t", caseNumber := "CN-1", eventTitle := "e", eventDate := "d",
    resolutionText := none }

/-- Witness for C8 at the `high-priority-report` template itself. -/
theorem unknownTemplate_generic_w :
    generateEmailContent "high-priority-report" templateDataW "now" id =
      genericEmail ∧
    (generateEmailContent "high-priority-report" templateDataW "now" id).subject =
      "NyayaMitra Notification" ∧
    generateSMSContent "high-priority-report" templateDataW "now" id =
      "You have a new notification from NyayaMitra." ∧
    (∀ (lookup : Except String (List String)) (enq : ModNotifJob → Bool),
      ∀ j ∈ notifyModerators lookup enq,
        j.template = "high-priority-report" ∧
        generateEmailContent j.template templateDataW "now" id = genericEmail ∧
        generateSMSContent j.template templateDataW "now" id =
          "You have a new notification from NyayaMitra.") :=
  unknownTemplate_generic "high-priority-report" templateDataW "now" id
    (by decide) (by decide) (by decide)

end NyayaMitra
